import Mathlib

/-
Shallow embedding of src/app.py (norrisp90/GENeticAI): the AzureAIAgent
class with its initialize / create_thread / send_message methods, and the
chainlit on_chat_start handler `start`.

Remote SDK calls (azure.ai.projects, azure.identity) are external
collaborators; each call's outcome is supplied by an oracle record
(`Transport` for the agent calls used by send_message / create_thread,
`InitEnv` for the configuration and calls used by initialize). A field
value `.ok v` models a normal return of `v`; `.error e` models a raised
exception whose rendered text `str(e)` is `e`. Python attribute errors
that the code itself can trigger (calling `.id` on a `None` field) are
modelled explicitly at the point where the attribute access happens.

Logging calls (log_and_print, add_debug_info) only append diagnostic
strings; they are abstracted away except for the reset of `debug_info`
at the top of `initialize`, which is the only logging statement that
mutates state read elsewhere.
-/

/-- Access token returned by a credential's get_token call. -/
structure Token where
  expires_on : Nat
deriving Repr, DecidableEq

/-- Opaque AIProjectClient handle; the tag only distinguishes instances. -/
structure Client where
  tag : String
deriving Repr, DecidableEq

/-- Remote agent reference (the code uses only its `id`). -/
structure Agent where
  id : String
deriving Repr, DecidableEq

/-- Remote conversation thread reference (the code uses only its `id`). -/
structure ThreadT where
  id : String
deriving Repr, DecidableEq

/-- One entry of a thread's message list. `content` models the text
`msg.content[0].text.value` that line 308 of src/app.py extracts. -/
structure Msg where
  role : String
  created_at : Nat
  content : String
deriving Repr, DecidableEq

/-- Remote run object: its status string and the optional message of
`run.last_error` (none models both a missing attribute and a missing
message key, which line 313 treats identically). -/
structure Run where
  status : String
  last_error : Option String
deriving Repr, DecidableEq

/-- Mutable fields of the AzureAIAgent instance (src/app.py lines 39-43). -/
structure AgentState where
  client : Option Client := none
  agent : Option Agent := none
  thread : Option ThreadT := none
  debug_info : List String := []
deriving Repr, DecidableEq

/-- Oracle for the agent-service calls made by create_thread and
send_message. `createMessage` receives the thread id and content passed
at lines 272-276; `createRun` the thread id and assistant id of lines
279-282; `getRun` is indexed by the value of `wait_time` at the fetch
(line 293); `listMessages` receives the thread id of line 301. -/
structure Transport where
  createThread : Except String ThreadT
  createMessage : String → String → Except String Msg
  createRun : String → String → Except String Run
  getRun : Nat → Except String Run
  listMessages : String → Except String (List Msg)

/-- Method create_thread (src/app.py lines 253-263): on success stores the
new thread on self and returns it; any exception is caught and None is
returned with the state unchanged. -/
def create_thread (tr : Transport) (st : AgentState) : Option ThreadT × AgentState :=
  match tr.createThread with
  | .ok t => (some t, { st with thread := some t })
  | .error _ => (none, st)

/-- Line 313 of src/app.py:
error_msg = getattr(run, 'last_error', \x7b\x7d).get('message', 'Unknown error'). -/
def lastErrorMessage (run : Run) : String :=
  match run.last_error with
  | some e => e
  | none => "Unknown error"

/-- Polling loop of send_message (src/app.py lines 286-297):
while run.status in ["queued", "in_progress"] and wait_time < max_wait_time:
sleep(1); wait_time += 1; run = get_run(...).
`fuel` equals max_wait_time - wait_time (60 at entry, where wait_time = 0),
so `fuel = 0` is exactly the loop's `wait_time < max_wait_time` bound
failing. Returns the final run and final wait_time, or the exception
raised by a get_run call. -/
def pollLoop (tr : Transport) : Nat → Run → Nat → Except String (Run × Nat)
  | 0, run, wait_time => .ok (run, wait_time)
  | fuel + 1, run, wait_time =>
    if run.status = "queued" ∨ run.status = "in_progress" then
      match tr.getRun (wait_time + 1) with
      | .error e => .error e
      | .ok run_next => pollLoop tr fuel run_next (wait_time + 1)
    else .ok (run, wait_time)

/-- Body of send_message inside its try block (src/app.py lines 267-318).
The first component is the returned string (`.ok`) or the raised
exception's text (`.error`); the second is the state of self afterwards
(only create_thread at line 269 mutates it). -/
def sendMessageBody (tr : Transport) (st : AgentState) (message : String) :
    Except String String × AgentState :=
  let st1 := if st.thread = none then (create_thread tr st).2 else st
  match st1.thread with
  | none => (.error "NoneType object has no attribute id", st1)
  | some thread =>
    match tr.createMessage thread.id message with
    | .error e => (.error e, st1)
    | .ok message_obj =>
      match st1.agent with
      | none => (.error "NoneType object has no attribute id", st1)
      | some agent =>
        match tr.createRun thread.id agent.id with
        | .error e => (.error e, st1)
        | .ok run0 =>
          match pollLoop tr 60 run0 0 with
          | .error e => (.error e, st1)
          | .ok (run, wait_time) =>
            if run.status = "completed" then
              match tr.listMessages thread.id with
              | .error e => (.error e, st1)
              | .ok data =>
                match data.find?
                    (fun msg => msg.role == "assistant" &&
                      decide (message_obj.created_at < msg.created_at)) with
                | some msg => (.ok msg.content, st1)
                | none =>
                  (.ok "I received your message but didn't generate a response.", st1)
            else if run.status = "failed" then
              (.ok ("I encountered an error processing your request: " ++
                lastErrorMessage run), st1)
            else if 60 ≤ wait_time then
              (.ok "I'm taking longer than expected to respond. Please try again.", st1)
            else
              (.ok ("I'm currently " ++ run.status ++ ". Please try again in a moment."),
                st1)

/-- Method send_message (src/app.py lines 265-324): the body above wrapped
in the except handler of lines 320-324, which converts any exception into
the chat reply "I encountered an error: ...". -/
def sendMessage (tr : Transport) (st : AgentState) (message : String) :
    String × AgentState :=
  match sendMessageBody tr st message with
  | (.ok s, st1) => (s, st1)
  | (.error e, st1) => ("I encountered an error: " ++ e, st1)

/-- Python truthiness of an environment string: None and "" are falsy
(used by `if PROJECT_CONNECTION_STRING:` at line 117 and
`all([...])` at line 163). -/
def truthy : Option String → Bool
  | none => false
  | some s => s != ""

/-- Oracle for everything initialize consults: the five environment
variables (lines 32-36) and the outcome of each SDK call it makes.
`clientFromParsed` abstracts the fallback of lines 131-157 that re-creates
the client from the manually parsed connection string. `cogToken` (lines
109-113) is probed but its outcome is swallowed, so it is unused. -/
structure InitEnv where
  projectConnectionString : Option String
  agentIdCfg : Option String
  subscriptionId : Option String
  resourceGroup : Option String
  projectName : Option String
  miToken : Except String Token
  defaultToken : Except String Token
  cogToken : Except String Token
  clientFromConnectionString : Except String Client
  clientFromParsed : Except String Client
  clientFromParams : Except String Client
  listAgentsResult : Except String (List Agent)
  getAgentResult : String → Except String Agent

/-- Credential phase of initialize (src/app.py lines 82-105): managed
identity first, DefaultAzureCredential as fallback, and a raise when both
fail (line 105). -/
def credentialResult (env : InitEnv) : Except String Token :=
  match env.miToken with
  | .ok tok => .ok tok
  | .error ce =>
    match env.defaultToken with
    | .ok tok => .ok tok
    | .error de =>
      .error ("Both credential types failed. Managed Identity: " ++ ce ++
        ", Default: " ++ de)

/-- Client-creation phase of initialize (src/app.py lines 115-180):
connection string if truthy (with the parsed-parameter fallback, the
original exception re-raised at line 161 when both fail), else individual
parameters if all truthy, else the missing-configuration raise of line 180. -/
def clientResult (env : InitEnv) : Except String Client :=
  if truthy env.projectConnectionString then
    match env.clientFromConnectionString with
    | .ok c => .ok c
    | .error clientError =>
      match env.clientFromParsed with
      | .ok c => .ok c
      | .error _ => .error clientError
  else if truthy env.subscriptionId && truthy env.resourceGroup &&
      truthy env.projectName then
    env.clientFromParams
  else
    .error "Missing required configuration"

/-- Agent-resolution phase of initialize (src/app.py lines 183-209):
list_agents first (its exception propagates), then get_agent when
AGENT_ID is configured, else the first listed agent, else the raise of
line 206. -/
def agentResult (env : InitEnv) : Except String Agent :=
  match env.listAgentsResult with
  | .error e => .error e
  | .ok data =>
    match env.agentIdCfg with
    | some aid => env.getAgentResult aid
    | none =>
      match data with
      | a :: _ => .ok a
      | [] => .error "No agents found in the project"

/-- Method initialize (src/app.py lines 54-251): resets debug_info (line
56), then runs the three phases; self.client is assigned as soon as
client creation succeeds (lines 121, 150, 167), so it stays populated
when a later phase fails. Every exception reaching the outer handlers
(lines 223-251) makes the method return False, so the result is a Bool
and never a raised fault. -/
def initializeAgent (env : InitEnv) (st : AgentState) : Bool × AgentState :=
  let st0 := { st with debug_info := [] }
  match credentialResult env with
  | .error _ => (false, st0)
  | .ok _ =>
    match clientResult env with
    | .error _ => (false, st0)
    | .ok c =>
      let st1 := { st0 with client := some c }
      match agentResult env with
      | .error _ => (false, st1)
      | .ok a => (true, { st1 with agent := some a })

/-- Per-chat-session key-value store (cl.user_session): the keys the code
sets in `start` (lines 355-361, 391). `azure_agent_set` records whether
the "azure_agent" key was stored; the value it would hold is always the
single module-level instance. -/
structure UserSession where
  initialized : Bool := false
  azure_agent_set : Bool := false
  thread_id : Option String := none
deriving Repr, DecidableEq

/-- Handler start (src/app.py lines 329-391), with the UI-message sends
omitted: it calls initialize on the module-level azure_agent (line 338),
and on success stores the shared agent and initialized=True in the
session (355-356) and then creates the initial thread (359-361); on
failure it stores initialized=False (391). Note the session is marked
initialized before, and regardless of, thread creation. -/
def startSession (env : InitEnv) (tr : Transport) (st : AgentState)
    (sess : UserSession) : AgentState × UserSession :=
  match initializeAgent env st with
  | (true, st1) =>
    let sess1 := { sess with azure_agent_set := true, initialized := true }
    match create_thread tr st1 with
    | (some t, st2) => (st2, { sess1 with thread_id := some t.id })
    | (none, st2) => (st2, sess1)
  | (false, st1) => (st1, { sess with initialized := false })

/-- Events of a streaming run, as the spec's closed tagged variant
(spec.md section 4.1, streaming algorithm). -/
inductive StreamEvent where
  | delta (text : String)
  | runFailed
  | streamError (payload : String)
  | done
  | other
deriving Repr, DecidableEq

/-- Modelled from the spec: the distinct "no response received" marker the
streaming algorithm returns when the accumulator is empty at normal
termination (spec.md section 4.1); no streaming code exists under src/. -/
def noResponseMarker : String := "No response received."

/-- Modelled from the spec: the fixed error text published when a
run-status notification reports failed (spec.md section 4.1). -/
def streamFailedText : String := "The run failed."

/-- Modelled from the spec: the error string derived from a stream-level
error event's payload (spec.md section 4.1). -/
def streamErrorText (payload : String) : String :=
  "Stream error: " ++ payload

/-- Modelled from the spec: the stream-consumption loop of the streaming
algorithm (spec.md section 4.1), which src/ does not implement. Events
are processed in arrival order; a delta appends to the accumulator and
immediately publishes the accumulator's current value; failed-status and
stream-error events publish an error text and terminate early; done (or
stream end) terminates normally, returning the accumulated text or the
marker when it is empty; other events are ignored. Returns the published
fragments in publication order together with the final reply. -/
def consumeStream : List StreamEvent → String → List String → List String × String
  | [], acc, frags => (frags.reverse, if acc = "" then noResponseMarker else acc)
  | e :: rest, acc, frags =>
    match e with
    | .delta d => consumeStream rest (acc ++ d) ((acc ++ d) :: frags)
    | .runFailed => ((streamFailedText :: frags).reverse, streamFailedText)
    | .streamError p => ((streamErrorText p :: frags).reverse, streamErrorText p)
    | .done => (frags.reverse, if acc = "" then noResponseMarker else acc)
    | .other => consumeStream rest acc frags

/-- Modelled from the spec: sendMessageStreaming's stream phase, starting
from an empty accumulator (spec.md sections 4.1 and 6); src/ has no
streaming implementation. The first component lists the fragment-sink
invocations in order; the second is the final reply text. -/
def sendMessageStreaming (events : List StreamEvent) : List String × String :=
  consumeStream events "" []

/-- Concatenation of a list of delta texts in order, used to state the
spec's streaming property (spec.md section 8, property 1). -/
def concatAll : List String → String
  | [] => ""
  | s :: rest => s ++ concatAll rest

/-- Agent state of a fully initialized session holding thread "T". -/
def stReady : AgentState :=
  { client := some { tag := "c" }, agent := some { id := "agent-1" },
    thread := some { id := "T" }, debug_info := [] }

/-- Fresh module-level AzureAIAgent instance (src/app.py line 327). -/
def agent0 : AgentState := {}

/-- Fresh chainlit user session store. -/
def sess0 : UserSession := {}

/-- Transport whose run is created already in status requires_action; its
getRun would report completed, so any poll would be visible. -/
def trC1 : Transport :=
  { createThread := .error "unused"
    createMessage := fun _ _ => .ok { role := "user", created_at := 1, content := "hello" }
    createRun := fun _ _ => .ok { status := "requires_action", last_error := none }
    getRun := fun _ => .ok { status := "completed", last_error := none }
    listMessages := fun _ => .ok [] }

/-- Transport whose run completes at once and whose thread holds one
assistant message newer than the submitted user message. -/
def trC2 : Transport :=
  { createThread := .error "unused"
    createMessage := fun _ _ => .ok { role := "user", created_at := 1, content := "hi" }
    createRun := fun _ _ => .ok { status := "completed", last_error := none }
    getRun := fun _ => .error "unused"
    listMessages := fun _ =>
      .ok [ { role := "assistant", created_at := 2, content := "Hello there" } ] }

/-- Transport whose create_message call raises. -/
def trC3E : Transport :=
  { createThread := .error "unused"
    createMessage := fun _ _ => .error "boom"
    createRun := fun _ _ => .error "unused"
    getRun := fun _ => .error "unused"
    listMessages := fun _ => .error "unused" }

/-- Transport whose run is created already failed, carrying an error
message. -/
def trC4 : Transport :=
  { createThread := .error "unused"
    createMessage := fun _ _ => .ok { role := "user", created_at := 1, content := "hi" }
    createRun := fun _ _ => .ok { status := "failed", last_error := some "quota exceeded" }
    getRun := fun _ => .error "unused"
    listMessages := fun _ => .error "unused" }

/-- Transport whose run stays in_progress on every poll. -/
def trC5 : Transport :=
  { createThread := .error "unused"
    createMessage := fun _ _ => .ok { role := "user", created_at := 1, content := "hi" }
    createRun := fun _ _ => .ok { status := "queued", last_error := none }
    getRun := fun _ => .ok { status := "in_progress", last_error := none }
    listMessages := fun _ => .error "unused" }

/-- Transport whose run is created already in the status cancelling, a
status outside queued/in_progress/completed/failed. -/
def trC9 : Transport :=
  { createThread := .error "unused"
    createMessage := fun _ _ => .ok { role := "user", created_at := 1, content := "hi" }
    createRun := fun _ _ => .ok { status := "cancelling", last_error := none }
    getRun := fun _ => .error "unused"
    listMessages := fun _ => .error "unused" }

/-- Initialization environment in which every call succeeds (client A). -/
def envA : InitEnv :=
  { projectConnectionString := some "Endpoint=foo"
    agentIdCfg := some "agent-1"
    subscriptionId := none
    resourceGroup := none
    projectName := none
    miToken := .ok { expires_on := 100 }
    defaultToken := .error "unused"
    cogToken := .ok { expires_on := 100 }
    clientFromConnectionString := .ok { tag := "client-A" }
    clientFromParsed := .error "unused"
    clientFromParams := .error "unused"
    listAgentsResult := .ok [ { id := "agent-1" } ]
    getAgentResult := fun aid => .ok { id := aid } }

/-- Initialization environment in which every call succeeds (client B). -/
def envB : InitEnv :=
  { envA with clientFromConnectionString := .ok { tag := "client-B" } }

/-- Initialization environment in which the client is created but
list_agents then raises. -/
def envHalf : InitEnv :=
  { envA with listAgentsResult := .error "boom" }

/-- Transport whose create_thread yields thread T1. -/
def trA : Transport :=
  { createThread := .ok { id := "T1" }
    createMessage := fun _ _ => .error "unused"
    createRun := fun _ _ => .error "unused"
    getRun := fun _ => .error "unused"
    listMessages := fun _ => .error "unused" }

/-- Transport whose create_thread yields thread T2. -/
def trB : Transport :=
  { trA with createThread := .ok { id := "T2" } }

/-- Transport whose create_thread raises. -/
def trFail : Transport :=
  { trA with createThread := .error "service down" }

/-- Transport that makes the thread id a message-sending call uses
observable: create_message raises an exception naming the thread id it
was given. -/
def trObs : Transport :=
  { trA with
    createThread := .error "unused"
    createMessage := fun tid _ => .error ("thread " ++ tid) }

/-- Success flag of a modelled call outcome: true on a normal return,
false on a raised exception. -/
def exOk {α : Type} : Except String α → Bool
  | .ok _ => true
  | .error _ => false

/-- Helper: under the usual successful-submission hypotheses, send_message
reduces to the branch analysis on the final run and wait_time returned by
the polling loop (src/app.py lines 299-318). -/
theorem sendMessage_eq_of_poll (tr : Transport) (st : AgentState) (t : ThreadT)
    (a : Agent) (m0 : Msg) (text : String) (run0 r : Run) (wait_time : Nat)
    (ht : st.thread = some t) (ha : st.agent = some a)
    (hm : tr.createMessage t.id text = .ok m0)
    (hr : tr.createRun t.id a.id = .ok run0)
    (hp : pollLoop tr 60 run0 0 = .ok (r, wait_time)) :
    sendMessage tr st text =
      (if r.status = "completed" then
         match tr.listMessages t.id with
         | .error e => "I encountered an error: " ++ e
         | .ok data =>
           match data.find?
               (fun msg => msg.role == "assistant" &&
                 decide (m0.created_at < msg.created_at)) with
           | some msg => msg.content
           | none => "I received your message but didn't generate a response."
       else if r.status = "failed" then
         "I encountered an error processing your request: " ++ lastErrorMessage r
       else if 60 ≤ wait_time then
         "I'm taking longer than expected to respond. Please try again."
       else "I'm currently " ++ r.status ++ ". Please try again in a moment.", st) := by
  obtain ⟨cl, ag, th, dbg⟩ := st
  obtain rfl : th = some t := ht
  obtain rfl : ag = some a := ha
  unfold sendMessage sendMessageBody
  dsimp only
  simp only [reduceCtorEq, if_false, ite_false]
  rw [hm]
  dsimp only
  rw [hr]
  dsimp only
  rw [hp]
  dsimp only
  by_cases h1 : r.status = "completed"
  · simp only [h1, reduceIte]
    cases hl : tr.listMessages t.id with
    | error e => simp
    | ok data =>
      cases hfind : data.find?
          (fun msg => msg.role == "assistant" &&
            decide (m0.created_at < msg.created_at)) <;> simp [hfind]
  · by_cases h2 : r.status = "failed"
    · simp [h1, h2]
    · by_cases h3 : 60 ≤ wait_time <;> simp [h1, h2, h3]

/-- Claim C1 counterexample: a run created in status requires_action with
the full attempt budget remaining (0 of 60 attempts used) exits the
polling loop immediately with zero fetches, instead of being awaited as
the claim states: the loop leaves the run unchanged at wait_time 0 even
though trC1.getRun would have reported completed, and send_message
surfaces the requires_action status at once. -/
theorem C1_counterexample :
    pollLoop trC1 60 { status := "requires_action", last_error := none } 0 =
      .ok ({ status := "requires_action", last_error := none }, 0)
    ∧ (sendMessage trC1 stReady "hello").1 =
      "I'm currently requires_action. Please try again in a moment." :=
  ⟨rfl, rfl⟩

/-- Claim C1 (amended): the polling loop of send_message continues (fetch,
increment) exactly while the run's status is queued or in_progress and
the attempt counter is below 60; a run in status requires_action exits
the loop immediately - send_message then returns the
"I'm currently requires_action" reply and its result does not depend on
the getRun oracle at all. -/
theorem C1_thm :
    ∀ (tr : Transport) (g : Nat → Except String Run) (st : AgentState) (t : ThreadT)
      (a : Agent) (m0 : Msg) (text : String) (run0 : Run),
      st.thread = some t → st.agent = some a →
      tr.createMessage t.id text = .ok m0 →
      tr.createRun t.id a.id = .ok run0 →
      run0.status = "requires_action" →
      ((sendMessage tr st text).1 =
          "I'm currently requires_action. Please try again in a moment."
        ∧ sendMessage { tr with getRun := g } st text = sendMessage tr st text
        ∧ ∀ (fuel wait_time : Nat) (run : Run),
            (run.status = "queued" ∨ run.status = "in_progress") →
            pollLoop tr (fuel + 1) run wait_time =
              (match tr.getRun (wait_time + 1) with
               | .error e => .error e
               | .ok run_next => pollLoop tr fuel run_next (wait_time + 1))) := by
  intro tr g st t a m0 text run0 ht ha hm hr hra
  have hguard : ¬(run0.status = "queued" ∨ run0.status = "in_progress") := by
    simp [hra]
  have hpoll : pollLoop tr 60 run0 0 = .ok (run0, 0) := by
    show pollLoop tr (59 + 1) run0 0 = .ok (run0, 0)
    simp only [pollLoop, if_neg hguard]
  have hpoll2 : pollLoop { tr with getRun := g } 60 run0 0 = .ok (run0, 0) := by
    show pollLoop { tr with getRun := g } (59 + 1) run0 0 = .ok (run0, 0)
    simp only [pollLoop, if_neg hguard]
  have e1 := sendMessage_eq_of_poll tr st t a m0 text run0 run0 0 ht ha hm hr hpoll
  have e2 := sendMessage_eq_of_poll { tr with getRun := g } st t a m0 text run0 run0 0
    ht ha hm hr hpoll2
  refine ⟨?_, ?_, ?_⟩
  · rw [e1]; simp [hra]
  · rw [e1, e2]
  · intro fuel wait_time run hs
    simp only [pollLoop, if_pos hs]

/-- Claim C1 witness: the amended theorem instantiated on trC1 and an
initialized state with thread T. -/
theorem C1_witness :
    (sendMessage trC1 stReady "hello").1 =
      "I'm currently requires_action. Please try again in a moment."
    ∧ sendMessage { trC1 with getRun := fun _ => .error "boom" } stReady "hello" =
      sendMessage trC1 stReady "hello" := by
  have h := C1_thm trC1 (fun _ => .error "boom") stReady { id := "T" }
    { id := "agent-1" } { role := "user", created_at := 1, content := "hello" } "hello"
    { status := "requires_action", last_error := none } rfl rfl rfl rfl rfl
  exact ⟨h.1, h.2.1⟩

/-- Helper: when the initial run and every polled run stay queued or
in_progress, the loop consumes all its fuel, ending at
wait_time + fuel with a run still queued or in_progress. -/
theorem pollLoop_busy (tr : Transport) :
    ∀ (fuel : Nat) (run : Run) (wait_time : Nat),
      (run.status = "queued" ∨ run.status = "in_progress") →
      (∀ k, wait_time < k → k ≤ wait_time + fuel →
        ∃ rk, tr.getRun k = .ok rk ∧
          (rk.status = "queued" ∨ rk.status = "in_progress")) →
      ∃ r, pollLoop tr fuel run wait_time = .ok (r, wait_time + fuel) ∧
        (r.status = "queued" ∨ r.status = "in_progress") := by
  intro fuel
  induction fuel with
  | zero =>
    intro run wt hs _
    exact ⟨run, by simp [pollLoop], hs⟩
  | succ n ih =>
    intro run wt hs hg
    obtain ⟨r1, hr1, hs1⟩ := hg (wt + 1) (by omega) (by omega)
    obtain ⟨r, hr, hsr⟩ := ih r1 (wt + 1) hs1
      (fun k h1 h2 => hg k (by omega) (by omega))
    refine ⟨r, ?_, hsr⟩
    simp only [pollLoop, if_pos hs, hr1]
    rw [hr]
    have harith : wt + 1 + n = wt + (n + 1) := by omega
    rw [harith]

/-- Claim C5: when the run stays queued or in_progress on creation and on
every one of the 60 one-second polls, send_message returns exactly the
"taking longer than expected" reply - the counter exhaustion is never
reported as the success reply or the failure reply. -/
theorem C5_thm :
    ∀ (tr : Transport) (st : AgentState) (t : ThreadT) (a : Agent) (m0 : Msg)
      (text : String) (run0 : Run),
      st.thread = some t → st.agent = some a →
      tr.createMessage t.id text = .ok m0 →
      tr.createRun t.id a.id = .ok run0 →
      (run0.status = "queued" ∨ run0.status = "in_progress") →
      (∀ k, 1 ≤ k → k ≤ 60 →
        ∃ rk, tr.getRun k = .ok rk ∧
          (rk.status = "queued" ∨ rk.status = "in_progress")) →
      (sendMessage tr st text).1 =
        "I'm taking longer than expected to respond. Please try again." := by
  intro tr st t a m0 text run0 ht ha hm hr hs0 hbusy
  obtain ⟨r, hp, hsr⟩ := pollLoop_busy tr 60 run0 0 hs0
    (fun k h1 h2 => hbusy k (by omega) (by omega))
  rw [Nat.zero_add] at hp
  have e := sendMessage_eq_of_poll tr st t a m0 text run0 r 60 ht ha hm hr hp
  rw [e]
  have h1 : ¬r.status = "completed" := by
    rcases hsr with h | h <;> simp [h]
  have h2 : ¬r.status = "failed" := by
    rcases hsr with h | h <;> simp [h]
  simp [h1, h2]

/-- Claim C5 witness: the theorem instantiated on trC5, whose run stays
in_progress on every poll. -/
theorem C5_witness :
    (sendMessage trC5 stReady "hi").1 =
      "I'm taking longer than expected to respond. Please try again." :=
  C5_thm trC5 stReady { id := "T" } { id := "agent-1" }
    { role := "user", created_at := 1, content := "hi" } "hi"
    { status := "queued", last_error := none } rfl rfl rfl rfl (Or.inl rfl)
    (fun _ _ _ => ⟨{ status := "in_progress", last_error := none }, rfl, Or.inr rfl⟩)

/-- Claim C4: when the polling loop ends with a run in status failed,
send_message returns the error-shaped reply built from the run's error
message, with the literal "Unknown error" substituted when the run
carries none; the reply embeds the carried message as a suffix. -/
theorem C4_thm :
    ∀ (tr : Transport) (st : AgentState) (t : ThreadT) (a : Agent) (m0 : Msg)
      (text : String) (run0 r : Run) (wait_time : Nat),
      st.thread = some t → st.agent = some a →
      tr.createMessage t.id text = .ok m0 →
      tr.createRun t.id a.id = .ok run0 →
      pollLoop tr 60 run0 0 = .ok (r, wait_time) →
      r.status = "failed" →
      ((sendMessage tr st text).1 =
          "I encountered an error processing your request: " ++ lastErrorMessage r
        ∧ (∀ e, r.last_error = some e →
            ∃ pre, (sendMessage tr st text).1 = pre ++ e)
        ∧ (r.last_error = none →
            (sendMessage tr st text).1 =
              "I encountered an error processing your request: " ++ "Unknown error")) := by
  intro tr st t a m0 text run0 r wait_time ht ha hm hr hp hfail
  have e := sendMessage_eq_of_poll tr st t a m0 text run0 r wait_time ht ha hm hr hp
  have hmain : (sendMessage tr st text).1 =
      "I encountered an error processing your request: " ++ lastErrorMessage r := by
    rw [e]; simp [hfail]
  refine ⟨hmain, ?_, ?_⟩
  · intro err herr
    exact ⟨"I encountered an error processing your request: ",
      by rw [hmain]; simp [lastErrorMessage, herr]⟩
  · intro hnone
    rw [hmain]; simp [lastErrorMessage, hnone]

/-- Claim C4 witness: the theorem instantiated on trC4, whose run is
created already failed with the error message "quota exceeded". -/
theorem C4_witness :
    (sendMessage trC4 stReady "hi").1 =
      "I encountered an error processing your request: " ++ "quota exceeded" := by
  have h := C4_thm trC4 stReady { id := "T" } { id := "agent-1" }
    { role := "user", created_at := 1, content := "hi" } "hi"
    { status := "failed", last_error := some "quota exceeded" }
    { status := "failed", last_error := some "quota exceeded" } 0
    rfl rfl rfl rfl rfl rfl
  rw [h.1]; rfl

/-- Claim C9 counterexample: the "I'm currently cancelling" reply is
produced while the attempt budget fully remains - the polling loop exits
at wait_time 0 (of 60) because the created run's status cancelling is
outside queued/in_progress, and send_message returns the
"I'm currently ..." reply without any timeout having elapsed, refuting
that this reply is produced only when the timeout elapses. -/
theorem C9_counterexample :
    pollLoop trC9 60 { status := "cancelling", last_error := none } 0 =
      .ok ({ status := "cancelling", last_error := none }, 0)
    ∧ (sendMessage trC9 stReady "hi").1 =
      "I'm currently cancelling. Please try again in a moment."
    ∧ ¬60 ≤ 0 :=
  ⟨rfl, rfl, by omega⟩

/-- Claim C9 (amended): when the polling loop ends with a run whose status
is neither completed nor failed, send_message returns the
"taking longer than expected" reply if the attempt budget is exhausted
(wait_time at 60), and the "I'm currently status" reply exactly when
the loop exited early with budget remaining. -/
theorem C9_thm :
    ∀ (tr : Transport) (st : AgentState) (t : ThreadT) (a : Agent) (m0 : Msg)
      (text : String) (run0 r : Run) (wait_time : Nat),
      st.thread = some t → st.agent = some a →
      tr.createMessage t.id text = .ok m0 →
      tr.createRun t.id a.id = .ok run0 →
      pollLoop tr 60 run0 0 = .ok (r, wait_time) →
      ¬r.status = "completed" → ¬r.status = "failed" →
      (sendMessage tr st text).1 =
        (if 60 ≤ wait_time then
          "I'm taking longer than expected to respond. Please try again."
         else "I'm currently " ++ r.status ++ ". Please try again in a moment.") := by
  intro tr st t a m0 text run0 r wait_time ht ha hm hr hp h1 h2
  have e := sendMessage_eq_of_poll tr st t a m0 text run0 r wait_time ht ha hm hr hp
  rw [e]
  simp [h1, h2]

/-- Claim C9 witness: the amended theorem instantiated on trC9, whose run
is created in status cancelling and leaves the loop at wait_time 0. -/
theorem C9_witness :
    (sendMessage trC9 stReady "hi").1 =
      "I'm currently cancelling. Please try again in a moment." := by
  have h := C9_thm trC9 stReady { id := "T" } { id := "agent-1" }
    { role := "user", created_at := 1, content := "hi" } "hi"
    { status := "cancelling", last_error := none }
    { status := "cancelling", last_error := none } 0
    rfl rfl rfl rfl rfl (by decide) (by decide)
  simpa using h

/-- Helper: in a message list strictly descending on created_at, the first
find? match is maximal in created_at among all matching entries, so the
first-match scan of src/app.py lines 306-308 picks the most recent reply. -/
theorem find_first_max (u0 : Nat) :
    ∀ (data : List Msg) (m : Msg),
      data.Pairwise (fun m1 m2 => m2.created_at < m1.created_at) →
      data.find? (fun msg => msg.role == "assistant" &&
        decide (u0 < msg.created_at)) = some m →
      ∀ mq ∈ data, mq.role = "assistant" → u0 < mq.created_at →
        mq.created_at ≤ m.created_at := by
  intro data
  induction data with
  | nil => intro m _ hf; simp at hf
  | cons a rest ih =>
    intro m hp hf mq hmem hrole hlt
    rw [List.pairwise_cons] at hp
    obtain ⟨hall, hrest⟩ := hp
    by_cases hpa : (a.role == "assistant" && decide (u0 < a.created_at)) = true
    · rw [List.find?_cons_of_pos
        (p := fun msg => msg.role == "assistant" && decide (u0 < msg.created_at))
        rest hpa] at hf
      obtain rfl : a = m := by injection hf
      rcases List.mem_cons.mp hmem with rfl | hmem2
      · exact Nat.le_refl _
      · exact Nat.le_of_lt (hall mq hmem2)
    · rw [List.find?_cons_of_neg
        (p := fun msg => msg.role == "assistant" && decide (u0 < msg.created_at))
        rest hpa] at hf
      rcases List.mem_cons.mp hmem with rfl | hmem2
      · exact absurd (by simp [hrole, hlt]) hpa
      · exact ih m hrest hf mq hmem2 hrole hlt

/-- Claim C2: when the polling loop ends with a completed run and the
service returns the thread's messages newest-first (strictly descending
creation order), send_message returns the content of the most recent
assistant message created after the just-submitted user message, and
returns the distinct "didn't generate a response" reply when no such
message exists. -/
theorem C2_thm :
    ∀ (tr : Transport) (st : AgentState) (t : ThreadT) (a : Agent) (m0 : Msg)
      (text : String) (run0 r : Run) (wait_time : Nat) (data : List Msg),
      st.thread = some t → st.agent = some a →
      tr.createMessage t.id text = .ok m0 →
      tr.createRun t.id a.id = .ok run0 →
      pollLoop tr 60 run0 0 = .ok (r, wait_time) →
      r.status = "completed" →
      tr.listMessages t.id = .ok data →
      data.Pairwise (fun m1 m2 => m2.created_at < m1.created_at) →
      (((∃ m ∈ data, m.role = "assistant" ∧ m0.created_at < m.created_at) →
          ∃ m ∈ data, m.role = "assistant" ∧ m0.created_at < m.created_at ∧
            (sendMessage tr st text).1 = m.content ∧
            ∀ mq ∈ data, mq.role = "assistant" → m0.created_at < mq.created_at →
              mq.created_at ≤ m.created_at)
        ∧ ((∀ m ∈ data, ¬(m.role = "assistant" ∧ m0.created_at < m.created_at)) →
          (sendMessage tr st text).1 =
            "I received your message but didn't generate a response.")) := by
  intro tr st t a m0 text run0 r wait_time data ht ha hm hr hp hc hl hsorted
  have e := sendMessage_eq_of_poll tr st t a m0 text run0 r wait_time ht ha hm hr hp
  have e2 : (sendMessage tr st text).1 =
      match data.find? (fun msg => msg.role == "assistant" &&
          decide (m0.created_at < msg.created_at)) with
      | some msg => msg.content
      | none => "I received your message but didn't generate a response." := by
    rw [e]; simp [hc, hl]
  constructor
  · rintro ⟨m, hmem, hrole, hlt⟩
    have hsome : (data.find? (fun msg => msg.role == "assistant" &&
        decide (m0.created_at < msg.created_at))).isSome := by
      apply List.find?_isSome.mpr
      exact ⟨m, hmem, by simp [hrole, hlt]⟩
    obtain ⟨mfound, hfind⟩ := Option.isSome_iff_exists.mp hsome
    have hpfound := List.find?_some hfind
    simp only [Bool.and_eq_true, beq_iff_eq, decide_eq_true_eq] at hpfound
    refine ⟨mfound, List.mem_of_find?_eq_some hfind, hpfound.1, hpfound.2, ?_, ?_⟩
    · rw [e2, hfind]
    · exact find_first_max m0.created_at data mfound hsorted hfind
  · intro hnone
    have hfn : data.find? (fun msg => msg.role == "assistant" &&
        decide (m0.created_at < msg.created_at)) = none := by
      rw [List.find?_eq_none]
      intro x hx
      simp only [Bool.and_eq_true, beq_iff_eq, decide_eq_true_eq, not_and]
      intro hrx hlx
      exact (hnone x hx) ⟨hrx, hlx⟩
    rw [e2, hfn]

/-- Claim C2 witness: the theorem instantiated on trC2, whose completed
run left exactly one assistant message newer than the user message. -/
theorem C2_witness :
    (sendMessage trC2 stReady "hi").1 = "Hello there" := by
  have h := (C2_thm trC2 stReady { id := "T" } { id := "agent-1" }
    { role := "user", created_at := 1, content := "hi" } "hi"
    { status := "completed", last_error := none }
    { status := "completed", last_error := none } 0
    [ { role := "assistant", created_at := 2, content := "Hello there" } ]
    rfl rfl rfl rfl rfl rfl rfl (by simp)).1
  obtain ⟨m, hmem, _, _, heq, _⟩ :=
    h ⟨{ role := "assistant", created_at := 2, content := "Hello there" },
      by simp, rfl, by decide⟩
  rw [List.mem_singleton] at hmem
  rw [heq, hmem]

/-- Claim C3: send_message always returns a chat string. Whatever the
transport does - any modelled exception raised during thread creation,
message append, run creation, status polling, or message listing appears
as an error result of the body - the except handler of lines 320-324
converts the exception text e into the textual reply
"I encountered an error: e", and a normal body result is passed through;
no exception escapes to the caller. -/
theorem C3_thm :
    ∀ (tr : Transport) (st : AgentState) (text : String),
      ((sendMessage tr st text).1 =
        (match (sendMessageBody tr st text).1 with
         | .ok s => s
         | .error e => "I encountered an error: " ++ e))
      ∧ (∀ e, (sendMessageBody tr st text).1 = .error e →
          (sendMessage tr st text).1 = "I encountered an error: " ++ e) := by
  intro tr st text
  have key : ∀ res, sendMessageBody tr st text = res →
      (sendMessage tr st text).1 =
        (match res.1 with
         | .ok s => s
         | .error e => "I encountered an error: " ++ e) := by
    intro res hres
    unfold sendMessage
    rw [hres]
    rcases res with ⟨res1, st1⟩
    cases res1 <;> rfl
  refine ⟨key _ rfl, ?_⟩
  intro e he
  rw [key _ rfl, he]

/-- Claim C3 witness: the theorem instantiated on trC3E, whose
create_message call raises the exception "boom". -/
theorem C3_witness :
    (sendMessage trC3E stReady "x").1 = "I encountered an error: " ++ "boom" :=
  (C3_thm trC3E stReady "x").2 "boom" rfl

/-- Claim C7 counterexample: with envHalf the client is created and stored
on self, then list_agents raises; initialize reports failure (False) yet
the session object keeps the populated client handle - the session is
left half-populated, refuting the claim's "no field such as the client
handle remains set when initialization reports failure" (the code has no
cleanup call). -/
theorem C7_counterexample :
    (initializeAgent envHalf agent0).1 = false
    ∧ (initializeAgent envHalf agent0).2.client = some { tag := "client-A" } :=
  ⟨rfl, rfl⟩

/-- Claim C7 (amended): initialize never raises - it returns True exactly
when the credential, client-creation and agent-resolution phases all
succeed and False otherwise (every modelled exception is absorbed by the
handlers of lines 223-251) - but it may leave fields such as the client
handle populated on failure, and the session's initialized flag set by
start equals the initialize result, assigned before and regardless of
thread creation. -/
theorem C7_thm :
    ∀ (env : InitEnv) (tr : Transport) (st : AgentState) (sess : UserSession),
      (initializeAgent env st).1 =
        (exOk (credentialResult env) &&
          (exOk (clientResult env) && exOk (agentResult env)))
      ∧ (startSession env tr st sess).2.initialized = (initializeAgent env st).1 := by
  intro env tr st sess
  constructor
  · unfold initializeAgent
    cases hcred : credentialResult env with
    | error e => simp [exOk]
    | ok tok =>
      cases hcl : clientResult env with
      | error e => simp [exOk]
      | ok c =>
        cases hag : agentResult env with
        | error e => simp [exOk]
        | ok a => simp [exOk]
  · unfold startSession
    rcases hinit : initializeAgent env st with ⟨ok, st1⟩
    cases ok with
    | true =>
      rcases hth : create_thread tr st1 with ⟨thOpt, st2⟩
      cases thOpt <;> simp [hth]
    | false => simp

/-- Claim C6 counterexample: two chat sessions A and B share the single
module-level azure_agent (src/app.py line 327). Session A's start stores
thread T1 both in its session store and on the shared agent; session B's
start then replaces the shared agent's thread with T2; afterwards the
very same send_message performed for session A posts to B's thread T2
instead of A's recorded T1, so B's operations changed the thread and
reply observed by A (trObs makes the thread id used observable in the
reply). -/
theorem C6_counterexample :
    ((startSession envA trA agent0 sess0).2.thread_id = some "T1")
    ∧ ((startSession envA trA agent0 sess0).1.thread = some { id := "T1" })
    ∧ ((startSession envB trB (startSession envA trA agent0 sess0).1 sess0).1.thread =
        some { id := "T2" })
    ∧ ((sendMessage trObs (startSession envA trA agent0 sess0).1 "hi").1 =
        "I encountered an error: " ++ "thread T1")
    ∧ ((sendMessage trObs
        (startSession envB trB (startSession envA trA agent0 sess0).1 sess0).1 "hi").1 =
        "I encountered an error: " ++ "thread T2") :=
  ⟨rfl, rfl, rfl, rfl, rfl⟩

/-- Claim C6 (amended): every chat session's start operates on the shared
module-level agent state it is given: whenever initialize succeeds and the
transport creates thread tB, start overwrites the shared agent's thread
with tB no matter which thread an earlier session had left there, stores
tB's id in the new session, and marks it initialized - so sessions are
not independent; the thread used by send_message is whatever the most
recent start wrote to the shared instance. -/
theorem C6_thm :
    ∀ (env : InitEnv) (tr : Transport) (st : AgentState) (sess : UserSession)
      (tB : ThreadT),
      (initializeAgent env st).1 = true →
      tr.createThread = .ok tB →
      ((startSession env tr st sess).1.thread = some tB
        ∧ (startSession env tr st sess).2.thread_id = some tB.id
        ∧ (startSession env tr st sess).2.initialized = true) := by
  intro env tr st sess tB hinit hth
  rcases h : initializeAgent env st with ⟨ok, st1⟩
  rw [h] at hinit
  dsimp only at hinit
  subst hinit
  unfold startSession
  rw [h]
  dsimp only
  unfold create_thread
  rw [hth]
  dsimp only
  exact ⟨rfl, rfl, rfl⟩

/-- Claim C6 witness: the amended theorem instantiated on session B's
start over the module state that session A's start had already populated
with thread T1; B's start overwrites it with T2. -/
theorem C6_witness :
    ((startSession envB trB (startSession envA trA agent0 sess0).1 sess0).1.thread =
        some { id := "T2" })
    ∧ ((startSession envB trB (startSession envA trA agent0 sess0).1 sess0).2.thread_id =
        some "T2")
    ∧ ((startSession envB trB (startSession envA trA agent0 sess0).1 sess0).2.initialized =
        true) :=
  C6_thm envB trB (startSession envA trA agent0 sess0).1 sess0 { id := "T2" } rfl rfl

/-- Helper: the polling loop consults only the getRun field of the
transport, so transports agreeing on getRun poll identically. -/
theorem pollLoop_congr (tr tru : Transport) (h : tru.getRun = tr.getRun) :
    ∀ (fuel : Nat) (run : Run) (wait_time : Nat),
      pollLoop tru fuel run wait_time = pollLoop tr fuel run wait_time := by
  intro fuel
  induction fuel with
  | zero => intro run wt; rfl
  | succ n ih =>
    intro run wt
    by_cases hs : run.status = "queued" ∨ run.status = "in_progress"
    · simp only [pollLoop, if_pos hs, h]
      cases hgr : tr.getRun (wt + 1) <;> simp [hgr, ih]
    · simp only [pollLoop, if_neg hs]

/-- Helper: the state send_message leaves behind is the state after the
optional create_thread of line 269 (no later step mutates self). -/
theorem sendMessageBody_state (tr : Transport) (st : AgentState) (text : String) :
    (sendMessageBody tr st text).2 =
      (if st.thread = none then (create_thread tr st).2 else st) := by
  unfold sendMessageBody
  dsimp only
  repeat' split
  all_goals rfl

/-- Helper: the except wrapper of send_message returns the body's state
unchanged. -/
theorem sendMessage_state (tr : Transport) (st : AgentState) (text : String) :
    (sendMessage tr st text).2 = (sendMessageBody tr st text).2 := by
  unfold sendMessage
  rcases h : sendMessageBody tr st text with ⟨res, st1⟩
  cases res <;> rfl

/-- Claim C8 counterexample: when initialize succeeds but the initial
create_thread raises (trFail), start still marks the session initialized
while neither the session store nor the shared agent holds any thread
identifier - an initialized session with no associated thread, refuting
the claimed invariant. -/
theorem C8_counterexample :
    ((startSession envA trFail agent0 sess0).2.initialized = true)
    ∧ ((startSession envA trFail agent0 sess0).2.thread_id = none)
    ∧ ((startSession envA trFail agent0 sess0).1.thread = none) :=
  ⟨rfl, rfl, rfl⟩

/-- Claim C8 (amended): send_message reuses the existing thread - when the
agent already holds thread t, the call leaves the thread unchanged and
its outcome is independent of the createThread oracle - and creates a
thread only when none exists (the resulting thread is then exactly what
createThread produced, or still none if it raised); however a session can
be marked initialized with no thread at all when the initial thread
creation fails (see the counterexample). -/
theorem C8_thm :
    ∀ (tr : Transport) (x : Except String ThreadT) (st : AgentState) (text : String),
      (∀ t, st.thread = some t →
        ((sendMessage tr st text).2.thread = some t
          ∧ sendMessage { tr with createThread := x } st text = sendMessage tr st text))
      ∧ (st.thread = none →
        (sendMessage tr st text).2.thread =
          (match tr.createThread with
           | .ok t => some t
           | .error _ => none)) := by
  intro tr x st text
  constructor
  · intro t ht
    constructor
    · rw [sendMessage_state, sendMessageBody_state]
      simp [ht]
    · have hbody : sendMessageBody { tr with createThread := x } st text =
          sendMessageBody tr st text := by
        obtain ⟨cl, ag, th, dbg⟩ := st
        obtain rfl : th = some t := ht
        unfold sendMessageBody
        dsimp only
        simp only [reduceCtorEq, if_false, ite_false,
          pollLoop_congr tr { tr with createThread := x } rfl]
      unfold sendMessage
      rw [hbody]
  · intro hnone
    rw [sendMessage_state, sendMessageBody_state]
    simp only [hnone, if_pos rfl, ite_true]
    unfold create_thread
    cases hct : tr.createThread with
    | ok t => simp
    | error e => simp [hnone]

/-- Claim C8 witness: the amended theorem instantiated on a state already
holding thread T - the thread is kept and the createThread oracle is
irrelevant to the call. -/
theorem C8_witness :
    ((sendMessage trC5 stReady "hi").2.thread = some { id := "T" })
    ∧ sendMessage { trC5 with createThread := .error "z" } stReady "hi" =
      sendMessage trC5 stReady "hi" :=
  (C8_thm trC5 (.error "z") stReady "hi").1 { id := "T" } rfl

/-- Helper: consuming a pure sequence of delta events publishes, after the
k-th delta, the accumulator extended by the first k deltas, and ends with
the full concatenation (or the marker when that concatenation is empty). -/
theorem consumeStream_deltas :
    ∀ (ds : List String) (acc : String) (frags : List String),
      consumeStream (ds.map .delta) acc frags =
        (frags.reverse ++ (List.range ds.length).map
            (fun k => acc ++ concatAll (ds.take (k + 1))),
          if acc ++ concatAll ds = "" then noResponseMarker
          else acc ++ concatAll ds) := by
  intro ds
  induction ds with
  | nil =>
    intro acc frags
    simp [consumeStream, concatAll]
  | cons d rest ih =>
    intro acc frags
    simp only [List.map_cons, consumeStream]
    rw [ih (acc ++ d) ((acc ++ d) :: frags)]
    simp only [List.reverse_cons, List.length_cons, List.range_succ_eq_map,
      List.map_cons, List.map_map, Function.comp_def, Nat.succ_eq_add_one,
      List.take_succ_cons, concatAll,
      String.append_assoc, String.append_empty, List.append_assoc,
      List.singleton_append, Prod.mk.injEq]

/-- Claim C10 counterexample: for the one-delta sequence whose only delta
is the empty string, the published fragment equals the concatenation so
far, but the final returned value is the distinct "no response received"
marker rather than the concatenation of all deltas (the empty string), as
it also is for the empty delta sequence - refuting the claimed equality of
the final value with the concatenation. -/
theorem C10_counterexample :
    ((sendMessageStreaming (([] : List String).map .delta)).2 = noResponseMarker)
    ∧ noResponseMarker ≠ concatAll ([] : List String)
    ∧ ((sendMessageStreaming ([""].map .delta)).1 = [""])
    ∧ ((sendMessageStreaming ([""].map .delta)).2 = noResponseMarker)
    ∧ noResponseMarker ≠ concatAll [""] :=
  ⟨rfl, by decide, rfl, rfl, by decide⟩

/-- Claim C10 (amended, spec-modelled): for every sequence of delta events
d1..dn of one streaming run, the fragment published after dk is exactly
the concatenation of d1..dk - successive fragments are monotonically
growing prefixes of the reply - and the final returned value equals the
concatenation of all deltas whenever that concatenation is non-empty,
with the distinct "no response received" marker returned instead when it
is empty. -/
theorem C10_thm :
    ∀ ds : List String,
      ((sendMessageStreaming (ds.map .delta)).1 =
        (List.range ds.length).map (fun k => concatAll (ds.take (k + 1))))
      ∧ ((sendMessageStreaming (ds.map .delta)).2 =
        (if concatAll ds = "" then noResponseMarker else concatAll ds)) := by
  intro ds
  unfold sendMessageStreaming
  rw [consumeStream_deltas ds "" []]
  constructor
  · simp
  · simp
